import Mathlib

/-!
Shallow embedding of the AQI aggregation and conversion pipeline of the
`isro-aqi-backend` repository (Node.js), together with proofs of the
testable properties stated in its specification.

Numbers are modelled as rationals (`ℚ`); JavaScript `Math.round` is
modelled as `fun q => ⌊q + 1/2⌋` (round half toward +∞), and the
JavaScript value space relevant to the converter (`undefined`, `null`,
finite numbers) is modelled by the inductive type `JSVal`.
-/

namespace AqiBackend

/-- One segment of a pollutant's piecewise-linear breakpoint table,
from `src/services/realAqiService.js` (objects `{cLow, cHigh, iLow, iHigh}`). -/
structure Breakpoint where
  cLow : ℚ
  cHigh : ℚ
  iLow : ℚ
  iHigh : ℚ
deriving DecidableEq

/-- JavaScript `Math.round`: rounds half toward positive infinity. -/
def jsRound (q : ℚ) : ℤ := ⌊q + 1/2⌋

/-- The linear interpolation applied inside a matched breakpoint segment:
`((bp.iHigh - bp.iLow) / (bp.cHigh - bp.cLow)) * (concentration - bp.cLow) + bp.iLow`. -/
def interpolate (bp : Breakpoint) (concentration : ℚ) : ℚ :=
  (bp.iHigh - bp.iLow) / (bp.cHigh - bp.cLow) * (concentration - bp.cLow) + bp.iLow

/-- `calculateSubIndex(concentration, breakpoints)` from
`src/services/realAqiService.js` lines 272-281: first segment with
`cLow ≤ concentration ≤ cHigh` wins; if no segment matches the
function falls through and returns 500. -/
def calculateSubIndex (concentration : ℚ) : List Breakpoint → ℚ
  | [] => 500
  | bp :: rest =>
    if bp.cLow ≤ concentration ∧ concentration ≤ bp.cHigh then
      interpolate bp concentration
    else
      calculateSubIndex concentration rest

/-- PM2.5 breakpoint table from `convertToIndianAQI` (lines 228-235). -/
def pm25Breakpoints : List Breakpoint :=
  [⟨0, 30, 0, 50⟩, ⟨30, 60, 51, 100⟩, ⟨60, 90, 101, 200⟩,
   ⟨90, 120, 201, 300⟩, ⟨120, 250, 301, 400⟩, ⟨250, 500, 401, 500⟩]

/-- PM10 breakpoint table from `convertToIndianAQI` (lines 240-247). -/
def pm10Breakpoints : List Breakpoint :=
  [⟨0, 50, 0, 50⟩, ⟨50, 100, 51, 100⟩, ⟨100, 250, 101, 200⟩,
   ⟨250, 350, 201, 300⟩, ⟨350, 430, 301, 400⟩, ⟨430, 500, 401, 500⟩]

/-- NO2 breakpoint table from `convertToIndianAQI` (lines 252-259). -/
def no2Breakpoints : List Breakpoint :=
  [⟨0, 40, 0, 50⟩, ⟨40, 80, 51, 100⟩, ⟨80, 180, 101, 200⟩,
   ⟨180, 280, 201, 300⟩, ⟨280, 400, 301, 400⟩, ⟨400, 500, 401, 500⟩]

/-- A JavaScript value as it reaches the converter: `undefined`, `null`,
or a finite number. -/
inductive JSVal where
  | undef
  | null
  | num (q : ℚ)
deriving DecidableEq

/-- The sub-indices contributed by one pollutant argument in
`convertToIndianAQI`: the guard is `value !== undefined`, so `undefined`
contributes nothing, while `null` passes the guard and is coerced to `0`
by the JavaScript relational and arithmetic operators inside
`calculateSubIndex`. -/
def subIndexContribution (v : JSVal) (breakpoints : List Breakpoint) : List ℚ :=
  match v with
  | .undef => []
  | .null => [calculateSubIndex 0 breakpoints]
  | .num q => [calculateSubIndex q breakpoints]

/-- `convertToIndianAQI(pm25, pm10, no2, so2, co, o3)` from
`src/services/realAqiService.js` lines 222-264: pushes sub-indices for
the `!== undefined` arguments among pm25, pm10 and no2 (the so2, co and
o3 parameters are never read), then returns
`Math.round(Math.max(...aqiValues, 1))`. -/
def convertToIndianAQI (pm25 pm10 no2 so2 co o3 : JSVal) : ℤ :=
  let aqiValues :=
    subIndexContribution pm25 pm25Breakpoints ++
    subIndexContribution pm10 pm10Breakpoints ++
    subIndexContribution no2 no2Breakpoints
  jsRound (aqiValues.foldr max 1)

example : convertToIndianAQI (.num 35) (.num 40) .undef .undef .undef .undef = 59 := by
  norm_num [convertToIndianAQI, subIndexContribution, calculateSubIndex, interpolate,
    pm25Breakpoints, pm10Breakpoints, no2Breakpoints, jsRound]

/-! ### Well-formedness of breakpoint tables -/

/-- A single segment is well formed: positive concentration width,
non-decreasing index range, indices within [0, 500]. -/
def bpOk (bp : Breakpoint) : Bool :=
  decide (bp.cLow < bp.cHigh) && decide (bp.iLow ≤ bp.iHigh) &&
  decide ((0:ℚ) ≤ bp.iLow) && decide (bp.iHigh ≤ (500:ℚ))

/-- A table is chained: every segment well formed, consecutive segments
share a concentration boundary, and index ranges never decrease from one
segment to the next. -/
def chainOk : List Breakpoint → Bool
  | [] => true
  | [bp] => bpOk bp
  | bp :: bp2 :: rest =>
    bpOk bp && decide (bp.cHigh = bp2.cLow) && decide (bp.iHigh ≤ bp2.iLow) &&
      chainOk (bp2 :: rest)

/-- Lower end of a table's covered concentration range. -/
def firstCLow : List Breakpoint → ℚ
  | [] => 0
  | bp :: _ => bp.cLow

/-- Upper end of a table's covered concentration range. -/
def lastCHigh : List Breakpoint → ℚ
  | [] => 0
  | [bp] => bp.cHigh
  | _ :: bp2 :: rest => lastCHigh (bp2 :: rest)

theorem bpOk_iff {bp : Breakpoint} :
    bpOk bp = true ↔
      bp.cLow < bp.cHigh ∧ bp.iLow ≤ bp.iHigh ∧ 0 ≤ bp.iLow ∧ bp.iHigh ≤ 500 := by
  simp [bpOk, and_assoc]

theorem chainOk_cons {bp : Breakpoint} {rest : List Breakpoint}
    (h : chainOk (bp :: rest) = true) : bpOk bp = true ∧ chainOk rest = true := by
  cases rest with
  | nil => simpa [chainOk] using h
  | cons bp2 rest2 =>
    simp only [chainOk, Bool.and_eq_true, decide_eq_true_eq] at h ⊢
    exact ⟨h.1.1.1, h.2⟩

theorem chainOk_boundary {bp bp2 : Breakpoint} {rest : List Breakpoint}
    (h : chainOk (bp :: bp2 :: rest) = true) :
    bp.cHigh = bp2.cLow ∧ bp.iHigh ≤ bp2.iLow := by
  simp only [chainOk, Bool.and_eq_true, decide_eq_true_eq] at h
  exact ⟨h.1.1.2, h.1.2⟩

theorem chainOk_bpOk {t : List Breakpoint} (h : chainOk t = true) :
    ∀ bp ∈ t, bpOk bp = true := by
  induction t with
  | nil => intro bp hbp; simp at hbp
  | cons bp0 rest ih =>
    intro bp hbp
    obtain ⟨h1, h2⟩ := chainOk_cons h
    rcases List.mem_cons.mp hbp with rfl | hm
    · exact h1
    · exact ih h2 bp hm

theorem chainOk_iHigh_le {bp : Breakpoint} {rest : List Breakpoint}
    (h : chainOk (bp :: rest) = true) : ∀ bp' ∈ rest, bp.iHigh ≤ bp'.iLow := by
  induction rest generalizing bp with
  | nil => intro bp' hbp'; simp at hbp'
  | cons bp2 rest2 ih =>
    intro bp' hbp'
    have hb := chainOk_boundary h
    have hrest : chainOk (bp2 :: rest2) = true := (chainOk_cons h).2
    rcases List.mem_cons.mp hbp' with rfl | hm
    · exact hb.2
    · have h2ok := (chainOk_cons hrest).1
      have h2 := bpOk_iff.mp h2ok
      exact le_trans hb.2 (le_trans h2.2.1 (ih hrest bp' hm))

/-! ### Generic properties of `calculateSubIndex` -/

theorem interpolate_mono {bp : Breakpoint} (h : bpOk bp = true) {c1 c2 : ℚ}
    (hc : c1 ≤ c2) : interpolate bp c1 ≤ interpolate bp c2 := by
  obtain ⟨h1, h2, _, _⟩ := bpOk_iff.mp h
  have hs : 0 ≤ (bp.iHigh - bp.iLow) / (bp.cHigh - bp.cLow) :=
    div_nonneg (by linarith) (by linarith)
  have := mul_le_mul_of_nonneg_left
    (show c1 - bp.cLow ≤ c2 - bp.cLow by linarith) hs
  unfold interpolate
  linarith

theorem interpolate_le_iHigh {bp : Breakpoint} (h : bpOk bp = true) {c : ℚ}
    (hc : c ≤ bp.cHigh) : interpolate bp c ≤ bp.iHigh := by
  obtain ⟨h1, h2, _, _⟩ := bpOk_iff.mp h
  have hpos : (0:ℚ) < bp.cHigh - bp.cLow := by linarith
  have hs : 0 ≤ (bp.iHigh - bp.iLow) / (bp.cHigh - bp.cLow) :=
    div_nonneg (by linarith) hpos.le
  have key : (bp.iHigh - bp.iLow) / (bp.cHigh - bp.cLow) * (bp.cHigh - bp.cLow)
      = bp.iHigh - bp.iLow := div_mul_cancel₀ _ hpos.ne'
  have step := mul_le_mul_of_nonneg_left
    (show c - bp.cLow ≤ bp.cHigh - bp.cLow by linarith) hs
  unfold interpolate
  linarith

theorem iLow_le_interpolate {bp : Breakpoint} (h : bpOk bp = true) {c : ℚ}
    (hc : bp.cLow ≤ c) : bp.iLow ≤ interpolate bp c := by
  obtain ⟨h1, h2, _, _⟩ := bpOk_iff.mp h
  have hs : 0 ≤ (bp.iHigh - bp.iLow) / (bp.cHigh - bp.cLow) :=
    div_nonneg (by linarith) (by linarith)
  have := mul_nonneg hs (show (0:ℚ) ≤ c - bp.cLow by linarith)
  unfold interpolate
  linarith

theorem calculateSubIndex_le_500 {t : List Breakpoint}
    (h : ∀ bp ∈ t, bpOk bp = true) (c : ℚ) : calculateSubIndex c t ≤ 500 := by
  induction t with
  | nil => simp [calculateSubIndex]
  | cons bp rest ih =>
    have hbp := h bp (by simp)
    unfold calculateSubIndex
    split_ifs with hcond
    · exact le_trans (interpolate_le_iHigh hbp hcond.2) (bpOk_iff.mp hbp).2.2.2
    · exact ih fun bp' hm => h bp' (by simp [hm])

theorem le_calculateSubIndex {t : List Breakpoint} {v : ℚ}
    (hok : ∀ bp ∈ t, bpOk bp = true) (hlb : ∀ bp ∈ t, v ≤ bp.iLow) (hv : v ≤ 500)
    (c : ℚ) : v ≤ calculateSubIndex c t := by
  induction t with
  | nil => simpa [calculateSubIndex]
  | cons bp rest ih =>
    unfold calculateSubIndex
    split_ifs with hcond
    · exact le_trans (hlb bp (by simp)) (iLow_le_interpolate (hok bp (by simp)) hcond.1)
    · exact ih (fun bp' hm => hok bp' (by simp [hm])) fun bp' hm => hlb bp' (by simp [hm])

theorem calculateSubIndex_nonneg {t : List Breakpoint}
    (h : ∀ bp ∈ t, bpOk bp = true) (c : ℚ) : 0 ≤ calculateSubIndex c t :=
  le_calculateSubIndex h (fun bp hm => (bpOk_iff.mp (h bp hm)).2.2.1) (by norm_num) c

theorem calculateSubIndex_cons (c : ℚ) (bp : Breakpoint) (rest : List Breakpoint) :
    calculateSubIndex c (bp :: rest) =
      if bp.cLow ≤ c ∧ c ≤ bp.cHigh then interpolate bp c
      else calculateSubIndex c rest := rfl

theorem calculateSubIndex_mono {c1 c2 : ℚ} :
    ∀ t : List Breakpoint, chainOk t = true → firstCLow t ≤ c1 → c1 ≤ c2 →
      c2 ≤ lastCHigh t → calculateSubIndex c1 t ≤ calculateSubIndex c2 t := by
  intro t
  induction t with
  | nil => intro _ _ _ _; exact le_refl _
  | cons bp rest ih =>
    intro hchain hlo h12 hhi
    obtain ⟨hbp, hrest⟩ := chainOk_cons hchain
    have hlo' : bp.cLow ≤ c1 := hlo
    by_cases h1 : c1 ≤ bp.cHigh
    · have e1 : calculateSubIndex c1 (bp :: rest) = interpolate bp c1 := by
        unfold calculateSubIndex
        rw [if_pos ⟨hlo', h1⟩]
      by_cases h2 : c2 ≤ bp.cHigh
      · have e2 : calculateSubIndex c2 (bp :: rest) = interpolate bp c2 := by
          unfold calculateSubIndex
          rw [if_pos ⟨le_trans hlo' h12, h2⟩]
        rw [e1, e2]
        exact interpolate_mono hbp h12
      · push_neg at h2
        have e2 : calculateSubIndex c2 (bp :: rest) = calculateSubIndex c2 rest := by
          rw [calculateSubIndex_cons, if_neg]
          rintro ⟨-, hle⟩
          linarith
        rw [e1, e2]
        refine le_trans (interpolate_le_iHigh hbp h1) ?_
        exact le_calculateSubIndex (chainOk_bpOk hrest) (chainOk_iHigh_le hchain)
          (bpOk_iff.mp hbp).2.2.2 c2
    · push_neg at h1
      have h2 : bp.cHigh < c2 := lt_of_lt_of_le h1 h12
      have e1 : calculateSubIndex c1 (bp :: rest) = calculateSubIndex c1 rest := by
        rw [calculateSubIndex_cons, if_neg]
        rintro ⟨-, hle⟩
        linarith
      have e2 : calculateSubIndex c2 (bp :: rest) = calculateSubIndex c2 rest := by
        rw [calculateSubIndex_cons, if_neg]
        rintro ⟨-, hle⟩
        linarith
      rw [e1, e2]
      cases rest with
      | nil =>
        exfalso
        have : lastCHigh [bp] = bp.cHigh := rfl
        rw [this] at hhi
        linarith
      | cons bp2 rest2 =>
        have hb := chainOk_boundary hchain
        refine ih hrest ?_ h12 ?_
        · show bp2.cLow ≤ c1
          rw [← hb.1]
          exact h1.le
        · exact hhi

/-! ### Facts about the three concrete tables -/

theorem chainOk_pm25 : chainOk pm25Breakpoints = true := by
  norm_num [chainOk, pm25Breakpoints, bpOk]

theorem chainOk_pm10 : chainOk pm10Breakpoints = true := by
  norm_num [chainOk, pm10Breakpoints, bpOk]

theorem chainOk_no2 : chainOk no2Breakpoints = true := by
  norm_num [chainOk, no2Breakpoints, bpOk]

/-! ### Fold and rounding helpers -/

theorem one_le_foldr_max : ∀ l : List ℚ, 1 ≤ l.foldr max 1
  | [] => le_refl 1
  | a :: l => le_trans (one_le_foldr_max l) (le_max_right a _)

theorem foldr_max_le {c : ℚ} :
    ∀ {l : List ℚ} {b : ℚ}, b ≤ c → (∀ x ∈ l, x ≤ c) → l.foldr max b ≤ c := by
  intro l
  induction l with
  | nil => intro b hb _; exact hb
  | cons a l ih =>
    intro b hb h
    exact max_le (h a (by simp)) (ih hb fun x hm => h x (by simp [hm]))

theorem le_jsRound {q : ℚ} {z : ℤ} (h : (z:ℚ) ≤ q) : z ≤ jsRound q :=
  Int.le_floor.mpr (by linarith)

theorem jsRound_le_500 {q : ℚ} (h : q ≤ 500) : jsRound q ≤ 500 := by
  have h1 : jsRound q ≤ ⌊(500:ℚ) + 1/2⌋ := Int.floor_le_floor (by linarith)
  have h2 : ⌊(500:ℚ) + 1/2⌋ = 500 := by norm_num
  omega

/-- The list of sub-indices actually accumulated by `convertToIndianAQI`. -/
def aqiValuesOf (pm25 pm10 no2 : JSVal) : List ℚ :=
  subIndexContribution pm25 pm25Breakpoints ++
  subIndexContribution pm10 pm10Breakpoints ++
  subIndexContribution no2 no2Breakpoints

theorem convertToIndianAQI_eq (pm25 pm10 no2 so2 co o3 : JSVal) :
    convertToIndianAQI pm25 pm10 no2 so2 co o3
      = jsRound ((aqiValuesOf pm25 pm10 no2).foldr max 1) := rfl

theorem subIndexContribution_le_500 {t : List Breakpoint}
    (h : ∀ bp ∈ t, bpOk bp = true) (v : JSVal) :
    ∀ x ∈ subIndexContribution v t, x ≤ 500 := by
  intro x hx
  cases v with
  | undef => simp [subIndexContribution] at hx
  | null =>
    simp only [subIndexContribution, List.mem_singleton] at hx
    subst hx
    exact calculateSubIndex_le_500 h 0
  | num q =>
    simp only [subIndexContribution, List.mem_singleton] at hx
    subst hx
    exact calculateSubIndex_le_500 h q

theorem aqiValuesOf_le_500 (pm25 pm10 no2 : JSVal) :
    ∀ x ∈ aqiValuesOf pm25 pm10 no2, x ≤ 500 := by
  intro x hx
  simp only [aqiValuesOf, List.mem_append] at hx
  rcases hx with (hx | hx) | hx
  · exact subIndexContribution_le_500 (chainOk_bpOk chainOk_pm25) pm25 x hx
  · exact subIndexContribution_le_500 (chainOk_bpOk chainOk_pm10) pm10 x hx
  · exact subIndexContribution_le_500 (chainOk_bpOk chainOk_no2) no2 x hx

/-! ### Spec-modelled overall index (all six pollutants) -/

/-- Modelled from the spec: the spec's §4.1 requires a distinct breakpoint
table for SO2, which the converter in `src/services/realAqiService.js` does
not contain. This table is built from `POLLUTANT_LIMITS.SO2` in the
repository's constants file mapped against the `AQI_CATEGORIES` index bands;
the SEVERE band's upper bound is `Infinity` in the source, so concentrations
above 1600 fall through to the converter's exceeds-all-segments policy (500). -/
def so2BreakpointsSpec : List Breakpoint :=
  [⟨0, 40, 0, 50⟩, ⟨40, 80, 51, 100⟩, ⟨80, 380, 101, 200⟩,
   ⟨380, 800, 201, 300⟩, ⟨800, 1600, 301, 400⟩]

/-- Modelled from the spec: CO table from `POLLUTANT_LIMITS.CO` (mg/m³),
same construction as `so2BreakpointsSpec`. -/
def coBreakpointsSpec : List Breakpoint :=
  [⟨0, 1, 0, 50⟩, ⟨1, 2, 51, 100⟩, ⟨2, 10, 101, 200⟩,
   ⟨10, 17, 201, 300⟩, ⟨17, 34, 301, 400⟩]

/-- Modelled from the spec: O3 table from `POLLUTANT_LIMITS.O3`,
same construction as `so2BreakpointsSpec`. -/
def o3BreakpointsSpec : List Breakpoint :=
  [⟨0, 50, 0, 50⟩, ⟨50, 100, 51, 100⟩, ⟨100, 168, 101, 200⟩,
   ⟨168, 208, 201, 300⟩, ⟨208, 748, 301, 400⟩]

/-- Modelled from the spec: `overallIndex(concentrations)` as §4.1 words it —
compute a sub-index for every pollutant present among PM2.5, PM10, NO2, SO2,
CO and O3, take the maximum of all computed sub-indices, round to the nearest
integer, and clamp to at least 1. -/
def overallIndexSpec (pm25 pm10 no2 so2 co o3 : JSVal) : ℤ :=
  let subs :=
    subIndexContribution pm25 pm25Breakpoints ++
    subIndexContribution pm10 pm10Breakpoints ++
    subIndexContribution no2 no2Breakpoints ++
    subIndexContribution so2 so2BreakpointsSpec ++
    subIndexContribution co coBreakpointsSpec ++
    subIndexContribution o3 o3BreakpointsSpec
  max 1 (jsRound (subs.foldr max 0))

/-! ### Claims C1, C2, C7, C8 -/

/-- C1, counterexample: with PM2.5 = 0 present and SO2 = 100000 present
(exceeding every SO2 segment, so its spec sub-index is 500),
`convertToIndianAQI` returns 1 — it never computes a sub-index for SO2 —
while the claimed behaviour (sub-index for every present pollutant,
maximum, rounded, clamped) requires 500. -/
theorem claim1_counterexample :
    convertToIndianAQI (.num 0) .undef .undef (.num 100000) .undef .undef = 1 ∧
    overallIndexSpec (.num 0) .undef .undef (.num 100000) .undef .undef = 500 ∧
    (1 : ℤ) ≠ 500 := by
  refine ⟨?_, ?_, by decide⟩ <;>
    norm_num [convertToIndianAQI, overallIndexSpec, subIndexContribution,
      calculateSubIndex, interpolate, pm25Breakpoints, so2BreakpointsSpec, jsRound]

/-- C1 (amended): for every concentrations input containing at least PM2.5,
`convertToIndianAQI` computes a sub-index for every pollutant present among
PM2.5, PM10 and NO2 only (the SO2, CO and O3 arguments are accepted but
ignored), returns the maximum of the computed sub-indices and 1 rounded to
the nearest integer, and the result is never below 1 or above 500. -/
theorem claim1_overallIndex (pm25q : ℚ) (pm10 no2 so2 co o3 so2' co' o3' : JSVal) :
    convertToIndianAQI (.num pm25q) pm10 no2 so2 co o3
        = convertToIndianAQI (.num pm25q) pm10 no2 so2' co' o3' ∧
    convertToIndianAQI (.num pm25q) pm10 no2 so2 co o3
        = jsRound ((aqiValuesOf (.num pm25q) pm10 no2).foldr max 1) ∧
    1 ≤ convertToIndianAQI (.num pm25q) pm10 no2 so2 co o3 ∧
    convertToIndianAQI (.num pm25q) pm10 no2 so2 co o3 ≤ 500 := by
  refine ⟨rfl, rfl, ?_, ?_⟩
  · rw [convertToIndianAQI_eq]
    exact le_jsRound (by exact_mod_cast one_le_foldr_max _)
  · rw [convertToIndianAQI_eq]
    exact jsRound_le_500
      (foldr_max_le (by norm_num) (aqiValuesOf_le_500 _ _ _))

/-- C2: a pollutant argument that is `undefined` or `null` never changes the
result of `convertToIndianAQI`: the result equals the one computed from the
remaining pollutants alone (the `undefined` slot is the "remaining pollutants
alone" form, since `undefined` is skipped by the `!== undefined` guard). -/
theorem claim2_null_absent_excluded (pm25 pm10 no2 so2 co o3 : JSVal) :
    (convertToIndianAQI .null pm10 no2 so2 co o3
      = convertToIndianAQI .undef pm10 no2 so2 co o3) ∧
    (convertToIndianAQI pm25 .null no2 so2 co o3
      = convertToIndianAQI pm25 .undef no2 so2 co o3) ∧
    (convertToIndianAQI pm25 pm10 .null so2 co o3
      = convertToIndianAQI pm25 pm10 .undef so2 co o3) ∧
    (convertToIndianAQI pm25 pm10 no2 so2 co o3
      = convertToIndianAQI pm25 pm10 no2 .undef .undef .undef) := by
  have h25 : calculateSubIndex 0 pm25Breakpoints = 0 := by
    norm_num [calculateSubIndex, pm25Breakpoints, interpolate]
  have h10 : calculateSubIndex 0 pm10Breakpoints = 0 := by
    norm_num [calculateSubIndex, pm10Breakpoints, interpolate]
  have hno2 : calculateSubIndex 0 no2Breakpoints = 0 := by
    norm_num [calculateSubIndex, no2Breakpoints, interpolate]
  refine ⟨?_, ?_, ?_, rfl⟩
  · rw [convertToIndianAQI_eq, convertToIndianAQI_eq]
    simp only [aqiValuesOf, subIndexContribution, h25, List.nil_append,
      List.cons_append, List.foldr_cons]
    rw [max_eq_right (le_trans zero_le_one (one_le_foldr_max _))]
  · rw [convertToIndianAQI_eq, convertToIndianAQI_eq]
    simp only [aqiValuesOf, subIndexContribution, h10, List.append_assoc,
      List.nil_append, List.cons_append, List.foldr_append, List.foldr_cons]
    rw [max_eq_right (le_trans zero_le_one (one_le_foldr_max _))]
  · rw [convertToIndianAQI_eq, convertToIndianAQI_eq]
    simp only [aqiValuesOf, subIndexContribution, hno2, List.append_assoc,
      List.nil_append, List.cons_append, List.append_nil, List.foldr_append,
      List.foldr_cons, List.foldr_nil]
    rw [max_eq_right (by norm_num : (0:ℚ) ≤ 1)]

/-- C7: for each breakpoint table used by the converter and any two
concentrations within the table's covered range [0, 500], the sub-index is
monotonically non-decreasing in the concentration. -/
theorem claim7_subIndex_monotone :
    ∀ t ∈ [pm25Breakpoints, pm10Breakpoints, no2Breakpoints],
      ∀ c1 c2 : ℚ, 0 ≤ c1 → c1 ≤ c2 → c2 ≤ 500 →
        calculateSubIndex c1 t ≤ calculateSubIndex c2 t := by
  intro t ht c1 c2 h0 h12 h500
  have key : chainOk t = true ∧ firstCLow t = 0 ∧ lastCHigh t = 500 := by
    fin_cases ht
    · exact ⟨chainOk_pm25, rfl, rfl⟩
    · exact ⟨chainOk_pm10, rfl, rfl⟩
    · exact ⟨chainOk_no2, rfl, rfl⟩
  exact calculateSubIndex_mono t key.1 (key.2.1 ▸ h0) h12 (key.2.2 ▸ h500)

/-- Witness for C7 at the PM2.5 table with concentrations 10 ≤ 20. -/
theorem claim7_subIndex_monotone_witness :
    calculateSubIndex 10 pm25Breakpoints ≤ calculateSubIndex 20 pm25Breakpoints :=
  claim7_subIndex_monotone pm25Breakpoints (by simp) 10 20
    (by norm_num) (by norm_num) (by norm_num)

/-- C8: for every concentration exceeding every segment's upper bound of the
given breakpoint table, `calculateSubIndex` returns exactly 500. -/
theorem claim8_subIndex_exceeds_all (t : List Breakpoint) (c : ℚ)
    (h : ∀ bp ∈ t, bp.cHigh < c) : calculateSubIndex c t = 500 := by
  induction t with
  | nil => rfl
  | cons bp rest ih =>
    rw [calculateSubIndex_cons, if_neg]
    · exact ih fun bp' hm => h bp' (by simp [hm])
    · rintro ⟨-, hle⟩
      exact absurd hle (not_le.mpr (h bp (by simp)))

/-- Witness for C8: concentration 1000 exceeds every PM2.5 segment. -/
theorem claim8_subIndex_exceeds_all_witness :
    calculateSubIndex 1000 pm25Breakpoints = 500 :=
  claim8_subIndex_exceeds_all pm25Breakpoints 1000
    (by intro bp hbp; fin_cases hbp <;> norm_num [pm25Breakpoints])

/-! ### Category mapping (C10) -/

/-- Category keys of the Indian NAQI scale, the keys of `AQI_CATEGORIES`
in the repository's constants file. -/
inductive CategoryKey where
  | GOOD
  | SATISFACTORY
  | MODERATE
  | POOR
  | VERY_POOR
  | SEVERE
deriving DecidableEq

/-- One entry of the `AQI_CATEGORIES` constant: `{min, max, label, color}`
keyed by category name (the color is irrelevant to the claims and omitted). -/
structure CategoryBand where
  key : CategoryKey
  min : ℚ
  max : ℚ
  label : String

/-- `AQI_CATEGORIES` from the repository's constants file, in insertion
order (the order `Object.entries` iterates). -/
def AQI_CATEGORIES : List CategoryBand :=
  [⟨.GOOD, 0, 50, "Good"⟩, ⟨.SATISFACTORY, 51, 100, "Satisfactory"⟩,
   ⟨.MODERATE, 101, 200, "Moderate"⟩, ⟨.POOR, 201, 300, "Poor"⟩,
   ⟨.VERY_POOR, 301, 400, "Very Poor"⟩, ⟨.SEVERE, 401, 500, "Severe"⟩]

/-- `categorizeAQI` from `src/utils/helpers.js` lines 8-27: iterate the
`AQI_CATEGORIES` entries in order, return the first band whose
`min ≤ aqi ≤ max`; if no band matches (in particular above 500) return
SEVERE with label 'Severe'. Modelled as the pair (category key, label). -/
def categorizeAQIAux (aqi : ℚ) : List CategoryBand → CategoryKey × String
  | [] => (.SEVERE, "Severe")
  | band :: rest =>
    if band.min ≤ aqi ∧ aqi ≤ band.max then (band.key, band.label)
    else categorizeAQIAux aqi rest

/-- `categorizeAQI(aqi)` from `src/utils/helpers.js`. -/
def categorizeAQI (aqi : ℚ) : CategoryKey × String :=
  categorizeAQIAux aqi AQI_CATEGORIES

/-- `getAQICategory(aqi)` from `src/services/realAqiService.js`
lines 513-520. -/
def getAQICategory (aqi : ℚ) : String :=
  if aqi ≤ 50 then "Good"
  else if aqi ≤ 100 then "Satisfactory"
  else if aqi ≤ 200 then "Moderate"
  else if aqi ≤ 300 then "Poor"
  else if aqi ≤ 400 then "Very Poor"
  else "Severe"

/-- Modelled from the spec: the fixed 6-bucket scale — GOOD 0–50,
SATISFACTORY 51–100, MODERATE 101–200, POOR 201–300, VERY_POOR 301–400,
SEVERE 401–500 and by policy anything above 500. Defined on the integer
AQI values the system produces (the data model fixes `indexValue` as an
integer). -/
def specCategory (n : ℤ) : CategoryKey :=
  if n ≤ 50 then .GOOD
  else if n ≤ 100 then .SATISFACTORY
  else if n ≤ 200 then .MODERATE
  else if n ≤ 300 then .POOR
  else if n ≤ 400 then .VERY_POOR
  else .SEVERE

/-- The label each category key carries in `AQI_CATEGORIES` (and that
`getAQICategory` returns directly). -/
def categoryLabel : CategoryKey → String
  | .GOOD => "Good"
  | .SATISFACTORY => "Satisfactory"
  | .MODERATE => "Moderate"
  | .POOR => "Poor"
  | .VERY_POOR => "Very Poor"
  | .SEVERE => "Severe"

/-- C10: on every integer AQI value ≥ 0 the two implementations
(`categorizeAQI` over the `AQI_CATEGORIES` table, and `getAQICategory`)
agree with the fixed 6-bucket scale of the spec, including the policy
that anything above 500 is SEVERE. -/
theorem claim10_categories (n : ℤ) (hn : 0 ≤ n) :
    categorizeAQI (n:ℚ) = (specCategory n, categoryLabel (specCategory n)) ∧
    getAQICategory (n:ℚ) = categoryLabel (specCategory n) := by
  have l0 : ((0:ℚ) ≤ (n:ℚ)) ↔ (0 ≤ n) := by exact_mod_cast Iff.rfl
  have l50 : (((n:ℚ)) ≤ 50) ↔ (n ≤ 50) := by exact_mod_cast Iff.rfl
  have l51 : ((51:ℚ) ≤ (n:ℚ)) ↔ (51 ≤ n) := by exact_mod_cast Iff.rfl
  have l100 : (((n:ℚ)) ≤ 100) ↔ (n ≤ 100) := by exact_mod_cast Iff.rfl
  have l101 : ((101:ℚ) ≤ (n:ℚ)) ↔ (101 ≤ n) := by exact_mod_cast Iff.rfl
  have l200 : (((n:ℚ)) ≤ 200) ↔ (n ≤ 200) := by exact_mod_cast Iff.rfl
  have l201 : ((201:ℚ) ≤ (n:ℚ)) ↔ (201 ≤ n) := by exact_mod_cast Iff.rfl
  have l300 : (((n:ℚ)) ≤ 300) ↔ (n ≤ 300) := by exact_mod_cast Iff.rfl
  have l301 : ((301:ℚ) ≤ (n:ℚ)) ↔ (301 ≤ n) := by exact_mod_cast Iff.rfl
  have l400 : (((n:ℚ)) ≤ 400) ↔ (n ≤ 400) := by exact_mod_cast Iff.rfl
  have l401 : ((401:ℚ) ≤ (n:ℚ)) ↔ (401 ≤ n) := by exact_mod_cast Iff.rfl
  have l500 : (((n:ℚ)) ≤ 500) ↔ (n ≤ 500) := by exact_mod_cast Iff.rfl
  constructor
  · simp only [categorizeAQI, categorizeAQIAux, AQI_CATEGORIES, specCategory,
      l0, l50, l51, l100, l101, l200, l201, l300, l301, l400, l401, l500]
    split_ifs <;> first | rfl | (exfalso; omega)
  · simp only [getAQICategory, specCategory, l50, l100, l200, l300, l400]
    split_ifs <;> rfl

/-- Witness for C10 at the integer AQI value 250 (POOR bucket). -/
theorem claim10_categories_witness :
    categorizeAQI ((250:ℤ):ℚ) = (specCategory 250, categoryLabel (specCategory 250)) ∧
    getAQICategory ((250:ℤ):ℚ) = categoryLabel (specCategory 250) :=
  claim10_categories 250 (by norm_num)

/-! ### Provider fallback chain (C3) -/

/-- A normalized reading as the fallback claims observe it: the `source`
and `stationType` provenance tags and the `isRealData` flag of the objects
built in `src/services/realAqiService.js`. -/
structure AqiReading where
  source : String
  stationType : String
  isRealData : Bool
deriving DecidableEq

/-- The environment `fetchRealTimeAQI` runs in: constructor-read
configuration (`USE_REAL_DATA`, the two API keys) plus the outcome of each
provider adapter. `fetchFromOpenWeatherMap` and `fetchFromIQAir` catch all
their own errors and return `null` on any failure, so each adapter outcome
is a single success/failure bit. -/
structure ProviderEnv where
  useRealData : Bool
  openWeatherApiKey : Option String
  iqAirApiKey : Option String
  owmSucceeds : Bool
  iqAirSucceeds : Bool

/-- Negation of the offline guard on the primary key (line 25):
`!this.openWeatherApiKey || this.openWeatherApiKey === 'placeholder_openweather_key'`
(`none` models an unset variable; the empty string is falsy too). -/
def owmKeyConfigured (env : ProviderEnv) : Bool :=
  match env.openWeatherApiKey with
  | none => false
  | some k => decide (k ≠ "" ∧ k ≠ "placeholder_openweather_key")

/-- The secondary-key guard (line 39):
`this.iqAirApiKey && this.iqAirApiKey !== 'placeholder_iqair_key'`. -/
def iqAirKeyConfigured (env : ProviderEnv) : Bool :=
  match env.iqAirApiKey with
  | none => false
  | some k => decide (k ≠ "" ∧ k ≠ "placeholder_iqair_key")

/-- Provenance fields of the reading `formatOpenWeatherMapResponse`
produces (lines 127-161). -/
def owmReading : AqiReading := ⟨"OpenWeatherMap", "OpenWeatherMap", true⟩

/-- Provenance fields of the reading `formatIQAirResponse` produces
(lines 170-210). -/
def iqAirReading : AqiReading := ⟨"IQAir", "IQAir", true⟩

/-- Provenance fields of `getMockAQIData(lat, lng, isError)`
(lines 444-473). -/
def mockReadingTag (isError : Bool) : AqiReading :=
  ⟨if isError then "Mock-Fallback" else "Mock-Development",
   if isError then "Mock-Fallback" else "Mock-Development",
   false⟩

/-- What `fetchRealTimeAQI` returned and which network adapters it invoked
along the way. -/
structure FetchTrace where
  reading : AqiReading
  attemptedOWM : Bool
  attemptedIQAir : Bool
deriving DecidableEq

/-- `fetchRealTimeAQI(lat, lng, radius)` from `src/services/realAqiService.js`
lines 24-55, instrumented with the adapters it invokes: offline guard first
(mock data, no network), then OpenWeatherMap, then IQAir if its key is
configured, then mock data with the error flag. -/
def fetchRealTimeAQI (env : ProviderEnv) : FetchTrace :=
  if !(env.useRealData && owmKeyConfigured env) then
    ⟨mockReadingTag false, false, false⟩
  else if env.owmSucceeds then
    ⟨owmReading, true, false⟩
  else if iqAirKeyConfigured env && env.iqAirSucceeds then
    ⟨iqAirReading, true, true⟩
  else
    ⟨mockReadingTag true, true, iqAirKeyConfigured env⟩

/-- C3: the provider chain tries sources in fixed priority order with
fallback. Offline mode (flag unset or primary key missing/placeholder)
returns mock data without any network attempt; if the primary fails and the
configured secondary succeeds the reading is IQAir's; if both fail the
reading carries the degraded 'Mock-Fallback' tag, distinct from offline
mode's 'Mock-Development'. -/
theorem claim3_fallback_chain (env : ProviderEnv) :
    (env.useRealData = false ∨ owmKeyConfigured env = false →
      fetchRealTimeAQI env = ⟨mockReadingTag false, false, false⟩ ∧
      (fetchRealTimeAQI env).reading.isRealData = false ∧
      (fetchRealTimeAQI env).reading.source = "Mock-Development") ∧
    (env.useRealData = true → owmKeyConfigured env = true →
      env.owmSucceeds = false → iqAirKeyConfigured env = true →
      env.iqAirSucceeds = true →
      (fetchRealTimeAQI env).reading = iqAirReading ∧
      (fetchRealTimeAQI env).reading.source = "IQAir") ∧
    (env.useRealData = true → owmKeyConfigured env = true →
      env.owmSucceeds = false →
      (iqAirKeyConfigured env = true → env.iqAirSucceeds = false) →
      (fetchRealTimeAQI env).reading = mockReadingTag true ∧
      (fetchRealTimeAQI env).reading.isRealData = false ∧
      (fetchRealTimeAQI env).reading.source = "Mock-Fallback") := by
  refine ⟨?_, ?_, ?_⟩
  · rintro (h | h) <;> simp [fetchRealTimeAQI, mockReadingTag, h]
  · intro h1 h2 h3 h4 h5
    simp [fetchRealTimeAQI, h1, h2, h3, h4, h5, iqAirReading]
  · intro h1 h2 h3 h4
    by_cases hk : iqAirKeyConfigured env = true
    · simp [fetchRealTimeAQI, h1, h2, h3, hk, h4 hk, mockReadingTag]
    · simp only [Bool.not_eq_true] at hk
      simp [fetchRealTimeAQI, h1, h2, h3, hk, mockReadingTag]

/-- A fully offline environment: real-data flag unset, no keys. -/
def offlineEnv : ProviderEnv := ⟨false, none, none, false, false⟩

/-- Witness for C3: in the offline environment the chain returns the
development mock tag without attempting any network call. -/
theorem claim3_fallback_chain_witness :
    fetchRealTimeAQI offlineEnv = ⟨mockReadingTag false, false, false⟩ ∧
    (fetchRealTimeAQI offlineEnv).reading.isRealData = false ∧
    (fetchRealTimeAQI offlineEnv).reading.source = "Mock-Development" :=
  (claim3_fallback_chain offlineEnv).1 (Or.inl rfl)

/-! ### Synthetic reading (C9) -/

/-- The observable fields of the object `getMockAQIData` returns. -/
structure MockReading where
  aqi : ℤ
  source : String
  stationType : String
  isRealData : Bool

/-- `getMockAQIData(lat, lng, isError)` from `src/services/realAqiService.js`
lines 444-473. `cityBaseAQI` is the nearest reference city's baseline
(`getCityMockData(lat, lng).baseAQI`); `randFloor` models
`Math.floor(Math.random() * 40)`, an integer in [0, 39]. The code computes
`baseAQI = cityBaseAQI + randFloor - 20` and clamps with
`Math.max(1, Math.min(500, baseAQI))`. -/
def getMockAQIData (cityBaseAQI : ℤ) (randFloor : ℤ) (isError : Bool) :
    MockReading :=
  let baseAQI := cityBaseAQI + randFloor - 20
  { aqi := max 1 (min 500 baseAQI)
    source := if isError then "Mock-Fallback" else "Mock-Development"
    stationType := if isError then "Mock-Fallback" else "Mock-Development"
    isRealData := false }

/-- C9: for every baseline and every value of the bounded noise source, the
synthetic reading's aqi is within [1, 500], its pre-clamp value differs from
the baseline by at least -20 and at most +19, and it always carries a mock
source tag with `isRealData = false`. -/
theorem claim9_mock_reading (cityBaseAQI randFloor : ℤ) (isError : Bool)
    (h0 : 0 ≤ randFloor) (h39 : randFloor ≤ 39) :
    1 ≤ (getMockAQIData cityBaseAQI randFloor isError).aqi ∧
    (getMockAQIData cityBaseAQI randFloor isError).aqi ≤ 500 ∧
    -20 ≤ (cityBaseAQI + randFloor - 20) - cityBaseAQI ∧
    (cityBaseAQI + randFloor - 20) - cityBaseAQI ≤ 19 ∧
    (getMockAQIData cityBaseAQI randFloor isError).isRealData = false ∧
    ((getMockAQIData cityBaseAQI randFloor isError).source = "Mock-Fallback" ∨
      (getMockAQIData cityBaseAQI randFloor isError).source = "Mock-Development") := by
  refine ⟨?_, ?_, by omega, by omega, rfl, ?_⟩
  · simp only [getMockAQIData]
    omega
  · simp only [getMockAQIData]
    omega
  · cases isError <;> simp [getMockAQIData]

/-- Witness for C9 at the Mumbai baseline (120) with noise floor 0. -/
theorem claim9_mock_reading_witness :
    1 ≤ (getMockAQIData 120 0 false).aqi ∧
    (getMockAQIData 120 0 false).aqi ≤ 500 ∧
    -20 ≤ (120 + 0 - 20) - 120 ∧
    (120 + 0 - 20 : ℤ) - 120 ≤ 19 ∧
    (getMockAQIData 120 0 false).isRealData = false ∧
    ((getMockAQIData 120 0 false).source = "Mock-Fallback" ∨
      (getMockAQIData 120 0 false).source = "Mock-Development") :=
  claim9_mock_reading 120 0 false (by norm_num) (by norm_num)

/-! ### Freshness cache (C5) -/

/-- `isDataFresh(timestamp)` from `src/routes/aqi.js` lines 180-185: with
times in milliseconds since the epoch, the data is fresh iff
`(now - dataTime) / (1000 * 60) ≤ 60` minutes. -/
def isDataFresh (now timestamp : ℚ) : Bool :=
  decide ((now - timestamp) / (1000 * 60) ≤ 60)

/-- A stored reading row as the route reads it back: its timestamp (ms since
epoch) and its payload. -/
structure CacheEntry (α : Type) where
  timestamp : ℚ
  reading : α

/-- The cache-or-fetch decision of the current-AQI route handler
(`src/routes/aqi.js` lines 49-63): if a stored row exists and `isDataFresh`
holds, serve it unchanged without invoking the aggregation service;
otherwise fetch fresh data. The stored row is never deleted — staleness
only makes the lookup a miss. Returns the served reading and whether the
fetch was invoked. -/
def serveCurrentAqi {α : Type} (cached : Option (CacheEntry α)) (now : ℚ)
    (fresh : α) : α × Bool :=
  match cached with
  | some entry =>
    if isDataFresh now entry.timestamp then (entry.reading, false)
    else (fresh, true)
  | none => (fresh, true)

/-- C5: a stored reading requested again within the 1-hour freshness window
(age ≤ 3 600 000 ms) is served unchanged without fetching; once it is more
than 60 minutes old the lookup is a miss and fresh data is fetched, although
the entry itself is still present (the handler has no delete operation —
`serveCurrentAqi` only reads the store). -/
theorem claim5_cache_freshness {α : Type} (entry : CacheEntry α) (now : ℚ)
    (fresh : α) :
    (now - entry.timestamp ≤ 60 * (1000 * 60) →
      serveCurrentAqi (some entry) now fresh = (entry.reading, false)) ∧
    (60 * (1000 * 60) < now - entry.timestamp →
      serveCurrentAqi (some entry) now fresh = (fresh, true)) := by
  constructor
  · intro h
    have hf : isDataFresh now entry.timestamp = true := by
      simp only [isDataFresh, decide_eq_true_eq]
      rw [div_le_iff₀ (by norm_num : (0:ℚ) < 1000 * 60)]
      linarith
    simp [serveCurrentAqi, hf]
  · intro h
    have hf : isDataFresh now entry.timestamp = false := by
      simp only [isDataFresh, decide_eq_false_iff_not, not_le]
      rw [lt_div_iff₀ (by norm_num : (0:ℚ) < 1000 * 60)]
      linarith
    simp [serveCurrentAqi, hf]

/-- Witness for C5: a reading stored at time 0 and requested at time
1 000 000 ms (≈ 16.7 minutes) is served from the cache. -/
theorem claim5_cache_freshness_witness :
    serveCurrentAqi (some (⟨0, (42:ℤ)⟩ : CacheEntry ℤ)) 1000000 7 = (42, false) :=
  (claim5_cache_freshness (⟨0, (42:ℤ)⟩ : CacheEntry ℤ) 1000000 7).1 (by norm_num)

/-! ### Route-level coordinate validation (C6) -/

/-- The result of `parseFloat` on a query-string value: a number or `NaN`. -/
inductive JSNum where
  | nan
  | val (q : ℚ)
deriving DecidableEq

/-- Negation of the latitude rejection (lines 31-35):
`isNaN(latitude) || latitude < -90 || latitude > 90`. -/
def latitudeValid : JSNum → Bool
  | .nan => false
  | .val q => decide (-90 ≤ q ∧ q ≤ 90)

/-- Negation of the longitude rejection (lines 37-41). -/
def longitudeValid : JSNum → Bool
  | .nan => false
  | .val q => decide (-180 ≤ q ∧ q ≤ 180)

/-- Negation of the radius rejection (lines 43-47):
`isNaN(searchRadius) || searchRadius <= 0 || searchRadius > 100`. -/
def radiusValid : JSNum → Bool
  | .nan => false
  | .val q => decide (0 < q ∧ q ≤ 100)

/-- Outcome of one invocation of the `GET /api/aqi` handler, instrumented
with whether the database cache was consulted and whether the aggregation
service (provider chain) was invoked. -/
structure RouteTrace (α : Type) where
  status : ℕ
  served : Option α
  cacheChecked : Bool
  fetchCalled : Bool
deriving DecidableEq

/-- `router.get('/')` from `src/routes/aqi.js` lines 15-101: presence check
on `lat`/`lng` (`none` models a missing or falsy query parameter), then
latitude, longitude and radius range validation — each an early
`400` return issued before the cache lookup and the provider chain — then
the cache-or-fetch path answering `200`. -/
def getAqiRouteHandler {α : Type} (lat lng : Option JSNum) (radius : JSNum)
    (cached : Option (CacheEntry α)) (now : ℚ) (fresh : α) : RouteTrace α :=
  match lat, lng with
  | none, _ => ⟨400, none, false, false⟩
  | some _, none => ⟨400, none, false, false⟩
  | some la, some lo =>
    if !(latitudeValid la) then ⟨400, none, false, false⟩
    else if !(longitudeValid lo) then ⟨400, none, false, false⟩
    else if !(radiusValid radius) then ⟨400, none, false, false⟩
    else
      ⟨200, some (serveCurrentAqi cached now fresh).1, true,
        (serveCurrentAqi cached now fresh).2⟩

/-- C6: a latitude outside [-90, 90] or a longitude outside [-180, 180] is
rejected with a client error (400) before the cache or any adapter is
consulted; with well-formed inputs the handler answers 200 with a reading
for every provider environment — provider failures are absorbed by the
fallback chain and never surface as an error. -/
theorem claim6_coordinate_rejection (laq loq radq : ℚ)
    (cached : Option (CacheEntry AqiReading)) (now : ℚ) (env : ProviderEnv) :
    (laq < -90 ∨ 90 < laq →
      ∀ lo radius,
        getAqiRouteHandler (some (.val laq)) (some lo) radius cached now
          (fetchRealTimeAQI env).reading = ⟨400, none, false, false⟩) ∧
    (loq < -180 ∨ 180 < loq →
      ∀ la radius,
        getAqiRouteHandler (some la) (some (.val loq)) radius cached now
          (fetchRealTimeAQI env).reading = ⟨400, none, false, false⟩) ∧
    (-90 ≤ laq → laq ≤ 90 → -180 ≤ loq → loq ≤ 180 → 0 < radq → radq ≤ 100 →
      getAqiRouteHandler (some (.val laq)) (some (.val loq)) (.val radq)
          cached now (fetchRealTimeAQI env).reading =
        ⟨200,
          some (serveCurrentAqi cached now (fetchRealTimeAQI env).reading).1,
          true,
          (serveCurrentAqi cached now (fetchRealTimeAQI env).reading).2⟩) := by
  refine ⟨?_, ?_, ?_⟩
  · intro h lo radius
    have hla : latitudeValid (.val laq) = false := by
      simp only [latitudeValid, decide_eq_false_iff_not, not_and, not_le]
      rcases h with h | h <;> intro h' <;> [linarith; linarith]
    simp [getAqiRouteHandler, hla]
  · intro h la radius
    have hlo : longitudeValid (.val loq) = false := by
      simp only [longitudeValid, decide_eq_false_iff_not, not_and, not_le]
      rcases h with h | h <;> intro h' <;> [linarith; linarith]
    cases la with
    | nan => simp [getAqiRouteHandler, latitudeValid]
    | val q =>
      by_cases hla : latitudeValid (.val q) = true
      · simp [getAqiRouteHandler, hla, hlo]
      · simp only [Bool.not_eq_true] at hla
        simp [getAqiRouteHandler, hla]
  · intro h1 h2 h3 h4 h5 h6
    have hla : latitudeValid (.val laq) = true := by
      simp only [latitudeValid, decide_eq_true_eq]
      exact ⟨h1, h2⟩
    have hlo : longitudeValid (.val loq) = true := by
      simp only [longitudeValid, decide_eq_true_eq]
      exact ⟨h3, h4⟩
    have hrad : radiusValid (.val radq) = true := by
      simp only [radiusValid, decide_eq_true_eq]
      exact ⟨h5, h6⟩
    simp [getAqiRouteHandler, hla, hlo, hrad]

/-- Witness for C6: latitude 95 with a valid longitude and radius is
rejected with 400 and neither the cache nor any adapter is consulted, in an
environment where both providers would fail. -/
theorem claim6_coordinate_rejection_witness :
    getAqiRouteHandler (α := AqiReading) (some (.val 95)) (some (.val 77))
        (.val 10) none 0
        (fetchRealTimeAQI ⟨true, some "k", some "k2", false, false⟩).reading =
      ⟨400, none, false, false⟩ :=
  (claim6_coordinate_rejection 95 77 10 none 0
    ⟨true, some "k", some "k2", false, false⟩).1 (Or.inr (by norm_num))
    (.val 77) (.val 10)

/-! ### Forecast generation (C4) -/

/-- One forecast point as the claims observe it. -/
structure ForecastPoint where
  hoursAhead : ℕ
  predictedAqi : ℤ
  confidence : ℚ

/-- One entry of the OpenWeatherMap forecast response list: the pollutant
components the real-path mapper reads. -/
structure OWMForecastItem where
  pm2_5 : ℚ
  pm10 : ℚ
  no2 : ℚ
  so2 : ℚ
  co : ℚ
  o3 : ℚ

/-- The point built for `data.list[index]` on the real path of
`fetchForecastData` (lines 363-388): `hoursAhead = index + 1`, the Indian
AQI converted from the item's components, fixed confidence 0.85. -/
def realForecastPoint (index : ℕ) (item : OWMForecastItem) : ForecastPoint :=
  { hoursAhead := index + 1
    predictedAqi := convertToIndianAQI (.num item.pm2_5) (.num item.pm10)
      (.num item.no2) (.num item.so2) (.num item.co) (.num item.o3)
    confidence := 85 / 100 }

/-- `data.list.slice(0, maxEntries).map((item, index) => ...)`: a map that
carries the running index. -/
def mapRealForecast (index : ℕ) : List OWMForecastItem → List ForecastPoint
  | [] => []
  | item :: rest => realForecastPoint index item :: mapRealForecast (index + 1) rest

/-- The point built for hour `i` on the mock path (`getMockForecastData`,
lines 412-441): `confidence = 0.75 - (i / hours) * 0.2`. `variation` stands
for the float expression `Math.sin(i / 12) * 30 + Math.random() * 20 - 10`,
passed in as an oracle (no claim depends on its value); `predictedAqi`
clamps `Math.round(baseAQI + variation)` into [10, 450]. -/
def mockForecastPoint (baseAQI : ℤ) (variation : ℕ → ℚ) (hours : ℕ)
    (i : ℕ) : ForecastPoint :=
  { hoursAhead := i
    predictedAqi := max 10 (min 450 (jsRound (baseAQI + variation i)))
    confidence := 75 / 100 - ((i : ℚ) / hours) * (20 / 100) }

/-- The loop `for (let i = 1; i <= hours; i++)` of `getMockForecastData`. -/
def getMockForecastPoints (baseAQI : ℤ) (variation : ℕ → ℚ)
    (hours : ℕ) : List ForecastPoint :=
  (List.range hours).map fun k => mockForecastPoint baseAQI variation hours (k + 1)

/-- The observable fields of the object `fetchForecastData` returns. -/
structure ForecastResult where
  forecast : List ForecastPoint
  model : String
  source : String
  isRealData : Bool

/-- The environment `fetchForecastData` runs in: configuration plus the
`data.list` of the forecast API response (`none` models a failed request,
whose exception is caught and routed to the mock generator). -/
structure ForecastEnv where
  useRealData : Bool
  openWeatherApiKey : Option String
  forecastApiList : Option (List OWMForecastItem)

/-- The key guard of `fetchForecastData` (line 341) is plain truthiness:
`!this.useRealData || !this.openWeatherApiKey` (no placeholder comparison
here, unlike `fetchRealTimeAQI`). -/
def forecastKeyTruthy (env : ForecastEnv) : Bool :=
  match env.openWeatherApiKey with
  | none => false
  | some k => decide (k ≠ "")

/-- `fetchForecastData(lat, lng, hours)` from `src/services/realAqiService.js`
lines 340-403: offline guard, then the provider call; an empty or missing
`data.list` throws, is caught, and falls back to the mock generator; a
non-empty list is truncated to `Math.min(hours, data.list.length)` entries
and mapped to points. -/
def fetchForecastData (env : ForecastEnv) (hours : ℕ) (baseAQI : ℤ)
    (variation : ℕ → ℚ) : ForecastResult :=
  if !(env.useRealData && forecastKeyTruthy env) then
    ⟨getMockForecastPoints baseAQI variation hours, "Mock_LSTM", "mock_data", false⟩
  else
    match env.forecastApiList with
    | none =>
      ⟨getMockForecastPoints baseAQI variation hours, "Mock_LSTM", "mock_data", false⟩
    | some [] =>
      ⟨getMockForecastPoints baseAQI variation hours, "Mock_LSTM", "mock_data", false⟩
    | some (item :: rest) =>
      ⟨mapRealForecast 0 ((item :: rest).take (min hours (item :: rest).length)),
        "OpenWeatherMap", "real_api", true⟩

theorem mapRealForecast_length :
    ∀ (items : List OWMForecastItem) (index : ℕ),
      (mapRealForecast index items).length = items.length := by
  intro items
  induction items with
  | nil => intro index; rfl
  | cons item rest ih =>
    intro index
    simp [mapRealForecast, ih (index + 1)]

theorem mapRealForecast_get :
    ∀ (items : List OWMForecastItem) (index k : ℕ)
      (hk : k < (mapRealForecast index items).length),
      (mapRealForecast index items).get ⟨k, hk⟩
        = realForecastPoint (index + k)
            (items.get ⟨k, by rw [← mapRealForecast_length items index]; exact hk⟩) := by
  intro items
  induction items with
  | nil => intro index k hk; simp [mapRealForecast] at hk
  | cons item rest ih =>
    intro index k hk
    cases k with
    | zero => simp [mapRealForecast, realForecastPoint]
    | succ k' =>
      have hk' : k' < (mapRealForecast (index + 1) rest).length := by
        simpa [mapRealForecast] using hk
      have := ih (index + 1) k' hk'
      simp only [mapRealForecast, List.get_cons_succ, this, List.get_cons_succ]
      congr 1
      omega

theorem getMockForecastPoints_length (baseAQI : ℤ) (variation : ℕ → ℚ)
    (hours : ℕ) : (getMockForecastPoints baseAQI variation hours).length = hours := by
  simp [getMockForecastPoints]

theorem getMockForecastPoints_get (baseAQI : ℤ) (variation : ℕ → ℚ)
    (hours k : ℕ) (hk : k < (getMockForecastPoints baseAQI variation hours).length) :
    (getMockForecastPoints baseAQI variation hours).get ⟨k, hk⟩
      = mockForecastPoint baseAQI variation hours (k + 1) := by
  simp [getMockForecastPoints, List.get_eq_getElem]

theorem mock_confidence_antitone (baseAQI : ℤ) (variation : ℕ → ℚ)
    (hours : ℕ) {k j : ℕ} (hkj : k ≤ j) :
    (mockForecastPoint baseAQI variation hours (j + 1)).confidence
      ≤ (mockForecastPoint baseAQI variation hours (k + 1)).confidence := by
  simp only [mockForecastPoint]
  have hcast : ((k:ℚ) + 1) ≤ ((j:ℚ) + 1) := by
    have : (k:ℚ) ≤ (j:ℚ) := by exact_mod_cast hkj
    linarith
  rcases Nat.eq_zero_or_pos hours with h0 | hpos
  · subst h0
    push_cast
    norm_num
  · have hh : (0:ℚ) < (hours:ℚ) := by exact_mod_cast hpos
    have hdiv : ((k:ℚ) + 1) / hours ≤ ((j:ℚ) + 1) / hours :=
      (div_le_div_iff_of_pos_right hh).mpr hcast
    push_cast
    push_cast at hdiv
    linarith

theorem mapRealForecast_get?_hoursAhead :
    ∀ (items : List OWMForecastItem) (index k : ℕ) (p : ForecastPoint),
      (mapRealForecast index items).get? k = some p → p.hoursAhead = index + k + 1 := by
  intro items
  induction items with
  | nil => intro index k p h; simp [mapRealForecast] at h
  | cons item rest ih =>
    intro index k p h
    cases k with
    | zero =>
      simp only [mapRealForecast, List.get?_cons_zero, Option.some_inj] at h
      rw [← h]
      rfl
    | succ k' =>
      have := ih (index + 1) k' p (by simpa [mapRealForecast] using h)
      omega

theorem mapRealForecast_get?_confidence :
    ∀ (items : List OWMForecastItem) (index k : ℕ) (p : ForecastPoint),
      (mapRealForecast index items).get? k = some p → p.confidence = 85 / 100 := by
  intro items
  induction items with
  | nil => intro index k p h; simp [mapRealForecast] at h
  | cons item rest ih =>
    intro index k p h
    cases k with
    | zero =>
      simp only [mapRealForecast, List.get?_cons_zero, Option.some_inj] at h
      rw [← h]
      rfl
    | succ k' =>
      exact ih (index + 1) k' p (by simpa [mapRealForecast] using h)

theorem getMockForecastPoints_get? (baseAQI : ℤ) (variation : ℕ → ℚ)
    (hours k : ℕ) {p : ForecastPoint}
    (h : (getMockForecastPoints baseAQI variation hours).get? k = some p) :
    k < hours ∧ p = mockForecastPoint baseAQI variation hours (k + 1) := by
  rcases List.get?_eq_some.mp h with ⟨hk, hget⟩
  have hk' : k < hours := by
    simpa [getMockForecastPoints_length] using hk
  refine ⟨hk', ?_⟩
  rw [← hget, getMockForecastPoints_get]

/-- The single-entry provider response used by the C4 counterexample. -/
def shortForecastEnv : ForecastEnv :=
  ⟨true, some "key", some [⟨10, 10, 10, 10, 10, 10⟩]⟩

/-- C4, counterexample: for the requested horizon 2 (within 1..96), on the
real path with the provider returning a single forecast entry, the
operation returns 1 `ForecastPoint`, not 2 — the real path truncates to
`Math.min(hours, data.list.length)` entries. -/
theorem claim4_counterexample :
    (fetchForecastData shortForecastEnv 2 100 fun _ => 0).forecast.length = 1 ∧
    (1 : ℕ) ≠ 2 := by
  constructor
  · decide
  · decide

/-- C4 (amended): for every requested horizon h in 1..96, every point of
the returned forecast at position k has `hoursAhead = k + 1` (so the
`hoursAhead` values are strictly increasing from 1), the confidence values
are non-increasing across the sequence (linearly decreasing on the
synthetic path, constant 0.85 on the real path); the synthetic path
returns exactly h points, while the real path returns
`min h (provider list length)` points. -/
theorem claim4_forecast (env : ForecastEnv) (hours : ℕ) (baseAQI : ℤ)
    (variation : ℕ → ℚ) (h1 : 1 ≤ hours) (h96 : hours ≤ 96) :
    (∀ k p, (fetchForecastData env hours baseAQI variation).forecast.get? k = some p →
      p.hoursAhead = k + 1) ∧
    (∀ k j pk pj,
      (fetchForecastData env hours baseAQI variation).forecast.get? k = some pk →
      (fetchForecastData env hours baseAQI variation).forecast.get? j = some pj →
      k ≤ j → pj.confidence ≤ pk.confidence) ∧
    ((env.useRealData = false ∨ forecastKeyTruthy env = false ∨
        env.forecastApiList = none ∨ env.forecastApiList = some []) →
      (fetchForecastData env hours baseAQI variation).forecast.length = hours) ∧
    (∀ item rest, env.useRealData = true → forecastKeyTruthy env = true →
      env.forecastApiList = some (item :: rest) →
      (fetchForecastData env hours baseAQI variation).forecast.length
        = min hours (item :: rest).length) := by
  by_cases hcond : (env.useRealData && forecastKeyTruthy env) = true
  · cases hlist : env.forecastApiList with
    | none =>
      have hF : (fetchForecastData env hours baseAQI variation).forecast
          = getMockForecastPoints baseAQI variation hours := by
        simp [fetchForecastData, hcond, hlist]
      refine ⟨?_, ?_, ?_, ?_⟩
      · intro k p hp
        rw [hF] at hp
        obtain ⟨hk, rfl⟩ := getMockForecastPoints_get? baseAQI variation hours k hp
        rfl
      · intro k j pk pj hpk hpj hkj
        rw [hF] at hpk hpj
        obtain ⟨hk, rfl⟩ := getMockForecastPoints_get? baseAQI variation hours k hpk
        obtain ⟨hj, rfl⟩ := getMockForecastPoints_get? baseAQI variation hours j hpj
        exact mock_confidence_antitone baseAQI variation hours hkj
      · intro _
        rw [hF, getMockForecastPoints_length]
      · intro item rest _ _ hlist'
        cases hlist'
    | some items =>
      cases items with
      | nil =>
        have hF : (fetchForecastData env hours baseAQI variation).forecast
            = getMockForecastPoints baseAQI variation hours := by
          simp [fetchForecastData, hcond, hlist]
        refine ⟨?_, ?_, ?_, ?_⟩
        · intro k p hp
          rw [hF] at hp
          obtain ⟨hk, rfl⟩ := getMockForecastPoints_get? baseAQI variation hours k hp
          rfl
        · intro k j pk pj hpk hpj hkj
          rw [hF] at hpk hpj
          obtain ⟨hk, rfl⟩ := getMockForecastPoints_get? baseAQI variation hours k hpk
          obtain ⟨hj, rfl⟩ := getMockForecastPoints_get? baseAQI variation hours j hpj
          exact mock_confidence_antitone baseAQI variation hours hkj
        · intro _
          rw [hF, getMockForecastPoints_length]
        · intro item rest _ _ hlist'
          simp at hlist'
      | cons item0 rest0 =>
        have hF : (fetchForecastData env hours baseAQI variation).forecast
            = mapRealForecast 0
                ((item0 :: rest0).take (min hours (item0 :: rest0).length)) := by
          simp [fetchForecastData, hcond, hlist]
        refine ⟨?_, ?_, ?_, ?_⟩
        · intro k p hp
          rw [hF] at hp
          have := mapRealForecast_get?_hoursAhead _ 0 k p hp
          omega
        · intro k j pk pj hpk hpj hkj
          rw [hF] at hpk hpj
          rw [mapRealForecast_get?_confidence _ 0 k pk hpk,
            mapRealForecast_get?_confidence _ 0 j pj hpj]
        · rintro (h | h | h | h)
          · simp [h] at hcond
          · simp [h] at hcond
          · cases h
          · simp at h
        · intro item rest _ _ hlist'
          injection hlist' with heq
          rw [hF, mapRealForecast_length, List.length_take, ← heq]
          omega
  · have hF : (fetchForecastData env hours baseAQI variation).forecast
        = getMockForecastPoints baseAQI variation hours := by
      simp [fetchForecastData, hcond]
    refine ⟨?_, ?_, ?_, ?_⟩
    · intro k p hp
      rw [hF] at hp
      obtain ⟨hk, rfl⟩ := getMockForecastPoints_get? baseAQI variation hours k hp
      rfl
    · intro k j pk pj hpk hpj hkj
      rw [hF] at hpk hpj
      obtain ⟨hk, rfl⟩ := getMockForecastPoints_get? baseAQI variation hours k hpk
      obtain ⟨hj, rfl⟩ := getMockForecastPoints_get? baseAQI variation hours j hpj
      exact mock_confidence_antitone baseAQI variation hours hkj
    · intro _
      rw [hF, getMockForecastPoints_length]
    · intro item rest hreal hkey _
      rw [hreal, hkey] at hcond
      simp at hcond

/-- Witness for C4 (amended) in the offline environment at horizon 2: the
synthetic path returns exactly 2 points. -/
theorem claim4_forecast_witness :
    (fetchForecastData ⟨false, none, none⟩ 2 100 fun _ => 0).forecast.length = 2 :=
  (claim4_forecast ⟨false, none, none⟩ 2 100 (fun _ => 0)
    (by norm_num) (by norm_num)).2.2.1 (Or.inl rfl)

end AqiBackend
